import Mathlib

/-!
Shallow embedding of the synthetics monitoring service (Go) and proofs about
its specification claims.  The embedding follows the Go sources:
`internal/config` (size and duration parsing, loading), `internal/metrics`
(the collector's recording rules), `internal/executor` (step dispatch, the
run/step metric events, curl timing conversion), `internal/executor/awsv4`
(SigV4 signing), `internal/jitter` and `internal/scheduler`.
Machine integers are modelled as `Int`/`Nat` (the quantities involved stay
far below 2^63, where Go semantics and unbounded semantics agree); byte
strings are `List Char` / `String`.
-/

namespace Synthetics

/-! ## Character/string helpers

The Go code uses `strings.TrimSpace`, `strings.ToUpper`, `strings.ToLower`,
`strings.Split`, `strings.HasPrefix`.  They are re-implemented here on
`List Char` with structural recursion so that all definitions reduce by
`rfl`/`decide`.  Whitespace is modelled as the ASCII whitespace characters,
the only ones occurring in the data these functions receive.
-/

/-- ASCII whitespace, as trimmed by the Go `strings.TrimSpace` calls in the
sources (the inputs involved only ever carry these). -/
def isSpaceChar (c : Char) : Bool :=
  c == ' ' || c == '\t' || c == '\n' || c == '\r'

/-- Model of `strings.TrimSpace` on char lists. -/
def trimChars (cs : List Char) : List Char :=
  ((cs.dropWhile isSpaceChar).reverse.dropWhile isSpaceChar).reverse

/-- Model of `strings.TrimSpace` on strings. -/
def trimS (s : String) : String :=
  String.mk (trimChars s.data)

/-- Model of `strings.ToUpper` (character-wise). -/
def toUpperS (s : String) : String :=
  String.mk (s.data.map Char.toUpper)

/-- Model of `strings.ToLower` (character-wise). -/
def toLowerS (s : String) : String :=
  String.mk (s.data.map Char.toLower)

/-- Model of `strings.HasPrefix`. -/
def hasPrefixChars : List Char → List Char → Bool
  | _, [] => true
  | [], _ :: _ => false
  | c :: cs, p :: ps => c == p && hasPrefixChars cs ps

/-- Model of `strings.HasPrefix` on strings. -/
def hasPrefixS (s p : String) : Bool :=
  hasPrefixChars s.data p.data

/-- Splits a char list at every occurrence of the separator character,
modelling `strings.Split(s, sep)` for a one-character separator. -/
def splitOnChar (sep : Char) : List Char → List (List Char)
  | [] => [[]]
  | c :: cs =>
    let rest := splitOnChar sep cs
    if c == sep then [] :: rest
    else match rest with
      | [] => [[c]]
      | r :: rs => (c :: r) :: rs

/-- Digits of a numeral, most significant first, to a natural number
(`strconv` digit accumulation). -/
def digitsToNat (cs : List Char) : Nat :=
  cs.foldl (fun acc c => acc * 10 + (c.toNat - 48)) 0

/-! ## Decimal numerals

`strconv.ParseFloat` is applied by the sources only to plain decimal
numerals (digit strings with an optional single dot and an optional sign):
the number part of a size such as `"5MB"`, a curl timing field such as
`"0.001"`, and the numeric part of a duration.  `Decimal` represents such a
numeral exactly; `Decimal.mulTrunc` is the Go conversion
`int64(num * float64(multiplier))`, i.e. multiplication followed by
truncation toward zero (exact on these inputs). -/

structure Decimal where
  neg : Bool
  intPart : Nat
  fracNum : Nat
  fracLen : Nat
  deriving Repr, DecidableEq

/-- Parses a plain decimal numeral (`[+-]?[0-9]*(\.[0-9]*)?`, at least one
digit), the only shapes `strconv.ParseFloat` receives in this code base;
other inputs yield `none` exactly as `ParseFloat` yields an error on them. -/
def parseDecimal (s : List Char) : Option Decimal :=
  let (sgn, rest) :=
    match s with
    | '-' :: t => (true, t)
    | '+' :: t => (false, t)
    | t => (false, t)
  let intDigits := rest.takeWhile Char.isDigit
  let rest1 := rest.drop intDigits.length
  match rest1 with
  | [] =>
    if intDigits.isEmpty then none
    else some ⟨sgn, digitsToNat intDigits, 0, 0⟩
  | '.' :: fracRest =>
    let fracDigits := fracRest.takeWhile Char.isDigit
    if fracRest.length ≠ fracDigits.length then none
    else if intDigits.isEmpty && fracDigits.isEmpty then none
    else some ⟨sgn, digitsToNat intDigits, digitsToNat fracDigits, fracDigits.length⟩
  | _ => none

/-- Value of `int64(num * float64(m))` for a parsed decimal `num`:
multiply by `m` and truncate toward zero. -/
def Decimal.mulTrunc (d : Decimal) (m : Nat) : Int :=
  let mag : Nat := d.intPart * m + d.fracNum * m / 10 ^ d.fracLen
  if d.neg then -(mag : Int) else (mag : Int)

/-! ## Byte sizes (`internal/config`: `parseByteSize`, `ByteSize.String`) -/

/-- Embedding of `config.parseByteSize`: trim, split the leading digit/dot
run from the unit, parse the number, map the unit (case-insensitive) to a
power-of-1024 multiplier, and truncate the product to an integer byte
count. -/
def parseByteSize (s : String) : Except String Int :=
  let t := trimChars s.data
  if t.isEmpty then .error "empty size string"
  else
    let numChars := t.takeWhile (fun c => c.isDigit || c == '.')
    let unitChars := t.drop numChars.length
    let (numStr, unitStr) :=
      if unitChars.isEmpty then (t, ['B']) else (numChars, unitChars)
    match parseDecimal (trimChars numStr) with
    | none => .error ("invalid number in size " ++ String.mk t)
    | some num =>
      let unit := toUpperS (trimS (String.mk unitStr))
      let mult : Option Nat :=
        if unit = "B" || unit = "" then some 1
        else if unit = "KB" || unit = "K" then some 1024
        else if unit = "MB" || unit = "M" then some (1024 * 1024)
        else if unit = "GB" || unit = "G" then some (1024 * 1024 * 1024)
        else none
      match mult with
      | none => .error ("unknown size unit " ++ unit)
      | some m => .ok (num.mulTrunc m)

/-- Embedding of `ByteSize.String`: render with the coarsest power-of-1024
unit that divides the value exactly, else raw bytes.  Division here is on
values guarded to be positive, where Go's truncating `int64` division
agrees with `Int.tdiv`. -/
def byteSizeString (bytes : Int) : String :=
  let KB : Int := 1024
  let MB : Int := 1024 * KB
  let GB : Int := 1024 * MB
  if bytes ≥ GB ∧ bytes.tmod GB = 0 then toString (bytes.tdiv GB) ++ "GB"
  else if bytes ≥ MB ∧ bytes.tmod MB = 0 then toString (bytes.tdiv MB) ++ "MB"
  else if bytes ≥ KB ∧ bytes.tmod KB = 0 then toString (bytes.tdiv KB) ++ "KB"
  else toString bytes ++ "B"

/-! ## Durations (`time.ParseDuration`, `TestStep.TimeoutDuration`)

`TestStep.TimeoutDuration` delegates to Go's `time.ParseDuration`, embedded
below (sign, the bare `"0"` special case, then a sequence of
number-fraction-unit components summed in nanoseconds; overflow checks are
immaterial at the magnitudes a test timeout can hold and are omitted).
Durations are nanosecond counts (`Int`). -/

/-- Nanoseconds per duration unit, Go's `unitMap`. -/
def durUnitNs : List Char → Option Nat
  | ['n', 's'] => some 1
  | ['u', 's'] => some 1000
  | ['µ', 's'] => some 1000
  | ['μ', 's'] => some 1000
  | ['m', 's'] => some 1000000
  | ['s'] => some 1000000000
  | ['m'] => some 60000000000
  | ['h'] => some 3600000000000
  | _ => none

/-- One pass of `ParseDuration`'s component loop: each component is
digits, an optional fraction, and a unit; the fuel argument bounds the
number of components (each consumes at least one character). -/
def parseDurationLoop : Nat → List Char → Option Nat
  | _, [] => some 0
  | 0, _ :: _ => none
  | fuel + 1, s =>
    let intDigits := s.takeWhile Char.isDigit
    let s1 := s.drop intDigits.length
    let pre := !intDigits.isEmpty
    let (fracDigits, s2, post) :=
      match s1 with
      | '.' :: t =>
        let fd := t.takeWhile Char.isDigit
        (fd, t.drop fd.length, !fd.isEmpty)
      | t => ([], t, false)
    if !pre && !post then none
    else
      let unitChars := s2.takeWhile (fun c => !(c == '.' || c.isDigit))
      let s3 := s2.drop unitChars.length
      if unitChars.isEmpty then none
      else
        match durUnitNs unitChars with
        | none => none
        | some unit =>
          let v := digitsToNat intDigits * unit +
            digitsToNat fracDigits * unit / 10 ^ fracDigits.length
          match parseDurationLoop fuel s3 with
          | none => none
          | some rest => some (v + rest)

/-- Embedding of `time.ParseDuration` on the decimal-component grammar
(`[-+]?([0-9]*(\.[0-9]*)?[a-z]+)+` plus the bare `"0"`), returning the
signed nanosecond count, or `none` on any malformed input. -/
def parseDuration (s : String) : Option Int :=
  let (neg, rest) :=
    match s.data with
    | '-' :: t => (true, t)
    | '+' :: t => (false, t)
    | t => (false, t)
  if rest = ['0'] then some 0
  else if rest.isEmpty then none
  else
    match parseDurationLoop rest.length rest with
    | none => none
    | some d => some (if neg then -(d : Int) else (d : Int))

/-- Embedding of `TestStep.TimeoutDuration`: the parsed timeout, or two
minutes when (and only when) parsing fails. -/
def timeoutDuration (timeout : String) : Int :=
  match parseDuration timeout with
  | none => 2 * 60 * 1000000000
  | some d => d

/-! ## Metric collector (`internal/metrics`)

A call to one of the `RecordStorj*` methods emits a sequence of metric
side effects on the Prometheus registry.  Each call touches a single label
set per family (the test/action/executor/bucket labels are fixed within
one call), so a call is modelled by the list of events it emits; counter
values are sums of the emitted increments.  Durations are nanosecond
counts. -/

/-- The `status` label value of `synthetics_test_runs_total` and
`synth_operation_success_total`. -/
inductive Status
  | success
  | failure
  deriving DecidableEq, Repr

/-- One metric side effect of a `RecordStorjUpload` / `RecordStorjDownload`
call: a `synth_duration_seconds` observation, a `synth_last_duration_seconds`
gauge set, a `synth_bytes_total` add, a `synth_operation_count_total` add,
or a `synth_operation_success_total` increment. -/
inductive StorjEvent
  | durationObs (fileSize : String) (ns : Int)
  | lastDurationSet (ns : Int)
  | bytesAdd (v : Int)
  | opCountAdd (n : Int)
  | opStatusInc (status : Status)
  deriving DecidableEq, Repr

/-- Embedding of `metrics.formatBytesLabel`, whose body coincides with
`config.ByteSize.String`: the coarsest power-of-1024 unit dividing the
byte count exactly, else raw bytes. -/
def formatBytesLabel (bytes : Int) : String :=
  byteSizeString bytes

/-- Embedding of `Collector.RecordStorjUpload`: histogram observation when
a file-size label and positive duration are present, gauge update on
positive duration, then on success the bytes add, the operation-count
increment and a success increment, and on failure only a failure
increment. -/
def recordStorjUpload (fileSize : String) (duration : Int) (bytes : Int)
    (success : Bool) : List StorjEvent :=
  (if fileSize ≠ "" ∧ duration > 0 then [.durationObs fileSize duration] else []) ++
  (if duration > 0 then [.lastDurationSet duration] else []) ++
  (if success then [.bytesAdd bytes, .opCountAdd 1, .opStatusInc .success]
   else [.opStatusInc .failure])

/-- Embedding of `Collector.RecordStorjDownload`: derives the file-size
label from the observed bytes when not configured (falling back to
`"unknown"`), then emits the same event pattern as the upload recorder,
except that the histogram guard checks only the duration (the derived
label is never empty). -/
def recordStorjDownload (fileSize : String) (duration : Int) (bytes : Int)
    (success : Bool) : List StorjEvent :=
  let fs1 := if fileSize = "" ∧ bytes > 0 then formatBytesLabel bytes else fileSize
  let fs2 := if fs1 = "" then "unknown" else fs1
  (if duration > 0 then [.durationObs fs2 duration] else []) ++
  (if duration > 0 then [.lastDurationSet duration] else []) ++
  (if success then [.bytesAdd bytes, .opCountAdd 1, .opStatusInc .success]
   else [.opStatusInc .failure])

/-- Net change of the `synth_bytes_total` counter caused by a list of
emitted events. -/
def bytesDelta (es : List StorjEvent) : Int :=
  (es.map fun e => match e with | .bytesAdd v => v | _ => 0).sum

/-- Net change of the `synth_operation_count_total` counter caused by a
list of emitted events. -/
def opCountDelta (es : List StorjEvent) : Int :=
  (es.map fun e => match e with | .opCountAdd n => n | _ => 0).sum

/-- Number of `synth_operation_success_total{status}` increments in a list
of emitted events. -/
def statusIncCount (st : Status) (es : List StorjEvent) : Nat :=
  es.countP (fun e => e = .opStatusInc st)

/-! ## Curl timing conversion (`internal/executor`: `parseCurlOutput`) -/

/-- The `metrics.HTTPTimings` struct: per-phase durations in
nanoseconds. -/
structure HTTPTimings where
  dnsLookup : Int
  tcpConnect : Int
  tlsHandshake : Int
  ttfb : Int
  transfer : Int
  total : Int
  deriving DecidableEq, Repr

/-- The cumulative-to-phase conversion block of `parseCurlOutput`
(`executor.go` lines 62-70): each phase is the difference of adjacent
cumulative curl timings, with no clamping. -/
def convertCurlTimings (dnsLookup tcpConnect tlsHandshake ttfb total : Int) :
    HTTPTimings :=
  { dnsLookup := dnsLookup
    tcpConnect := tcpConnect - dnsLookup
    tlsHandshake := tlsHandshake - tcpConnect
    ttfb := ttfb - tlsHandshake
    transfer := total - ttfb
    total := total }

/-- The local `parseSeconds` helper of `parseCurlOutput`:
`strconv.ParseFloat` followed by multiplication with `time.Second` and
truncation to a duration; a parse error yields `0`. -/
def parseSeconds (s : List Char) : Int :=
  match parseDecimal s with
  | none => 0
  | some d => d.mulTrunc 1000000000

/-- Embedding of `parseCurlOutput`: trim, split on the pipe character,
require exactly six fields, take the first as the status code and convert
the five cumulative timings into phase-local `HTTPTimings`. -/
def parseCurlOutput (output : String) : Except String (String × HTTPTimings) :=
  match splitOnChar '|' (trimChars output.data) with
  | [p0, p1, p2, p3, p4, p5] =>
    .ok (String.mk p0,
      convertCurlTimings (parseSeconds p1) (parseSeconds p2) (parseSeconds p3)
        (parseSeconds p4) (parseSeconds p5))
  | _ => .error ("unexpected curl output format: " ++ output)

/-! ## Step dispatch (`S3Executor.runStep`, `CurlS3Executor.runStep`,
`HttpS3Executor.runStep`)

Each of the three S3-family executors selects the operation for a step by
a `switch` on the step name whose cases are exactly `upload`, `download`
and `delete`; every other name takes the `default` arm, which produces an
unknown-operation error. -/

/-- The operation a step of an S3-family executor can dispatch to. -/
inductive S3Op
  | upload
  | download
  | delete
  deriving DecidableEq, Repr

/-- The `switch step.Name` of `S3Executor.runStep`
(`s3_executor.go` lines 184-195). -/
def s3StepDispatch (stepName : String) : Except String S3Op :=
  match stepName with
  | "upload" => .ok .upload
  | "download" => .ok .download
  | "delete" => .ok .delete
  | other => .error ("unknown S3 operation: " ++ other)

/-- The `switch step.Name` of `CurlS3Executor.runStep`
(`executor.go` lines 274-285). -/
def curlS3StepDispatch (stepName : String) : Except String S3Op :=
  match stepName with
  | "upload" => .ok .upload
  | "download" => .ok .download
  | "delete" => .ok .delete
  | other => .error ("unknown Curl S3 operation: " ++ other)

/-- The `switch step.Name` of `HttpS3Executor.runStep`
(`testdata.go`, `HttpS3Executor` part, lines 393-404). -/
def httpS3StepDispatch (stepName : String) : Except String S3Op :=
  match stepName with
  | "upload" => .ok .upload
  | "download" => .ok .download
  | "delete" => .ok .delete
  | other => .error ("unknown HTTP S3 operation: " ++ other)

/-! ## Test-run counter events (`S3Executor.RunTest` / `runStep`)

`RunTest` runs the steps in order; `runStep` records exactly one
`synthetics_test_runs_total` increment labelled with the step name unless
it fails before the operation dispatch (a step-jitter interruption).  On a
step error `RunTest` records one further failure increment labelled with
the step name and aborts; after all steps succeed it records a single
increment with the empty step label.  A step execution is abstracted by
its observable outcome; the emitted increments are listed as
`(step label, status)` pairs.  The identical control flow is shared by
`CurlS3Executor.RunTest` and `HttpS3Executor.RunTest`. -/

/-- Observable outcome of one step execution inside `runStep`:
interrupted by step jitter (before any metric is recorded), failed in the
dispatched operation (or hit the unknown-operation arm), or succeeded. -/
inductive StepOutcome
  | jitterInterrupted
  | opFailed
  | opSucceeded
  deriving DecidableEq, Repr

/-- A step together with the outcome its execution would observe. -/
structure StepRun where
  name : String
  outcome : StepOutcome
  deriving DecidableEq, Repr

/-- The `synthetics_test_runs_total` increments emitted by
`S3Executor.runStep` (`s3_executor.go` lines 160-207) and whether the step
succeeded: a jitter interruption returns an error before recording
anything; an operation failure records one failure increment; success
records one success increment. -/
def runStepEvents (s : StepRun) : List (String × Status) × Bool :=
  match s.outcome with
  | .jitterInterrupted => ([], false)
  | .opFailed => ([(s.name, .failure)], false)
  | .opSucceeded => ([(s.name, .success)], true)

/-- The increments emitted by the step loop of `S3Executor.RunTest`
(`s3_executor.go` lines 132-155): each step's own increments, then on the
first failing step one further failure increment labelled with that step's
name and the run aborts; if every step succeeds, a final increment with
the empty step label and success status. -/
def runStepsEvents : List StepRun → List (String × Status)
  | [] => [("", .success)]
  | s :: rest =>
    let (es, ok) := runStepEvents s
    if ok then es ++ runStepsEvents rest
    else es ++ [(s.name, .failure)]

/-- The increments emitted by one `S3Executor.RunTest` invocation
(`s3_executor.go` lines 106-157): nothing at all when the bucket-ensure
step fails (the run aborts before the loop), otherwise the step-loop
increments. -/
def runTestEvents (bucketOk : Bool) (steps : List StepRun) :
    List (String × Status) :=
  if bucketOk then runStepsEvents steps else []

/-- Number of increments in an event list carrying the given step
label. -/
def stepLabelCount (label : String) (es : List (String × Status)) : Nat :=
  es.countP (fun e => e.1 = label)

/-! ## Jitter (`internal/jitter`: `Apply`)

`Apply` is modelled against two oracles: the pseudo-random generator
output `randDraw` (so `rand.Int63n(maxJitter)` becomes
`randDraw % maxJitter`, a value in `[0, maxJitter)` for positive
`maxJitter`), and the context, given as the predicate telling whether
cancellation occurs within a duration. -/

/-- Result of a `jitter.Apply` call: returned `nil` without sleeping,
slept the chosen duration and returned `nil`, or was cancelled first and
returned the context's error. -/
inductive JitterOutcome
  | noSleep
  | slept (d : Int)
  | ctxCancelled
  deriving DecidableEq, Repr

/-- Embedding of `jitter.Apply` (`logging.go`, jitter part, lines
346-364): return immediately for non-positive `maxJitter`; otherwise draw
a duration in `[0, maxJitter)` and wait on it against the context. -/
def jitterApply (maxJitter : Int) (randDraw : Int)
    (cancelledWithin : Int → Bool) : JitterOutcome :=
  if maxJitter ≤ 0 then .noSleep
  else
    let jd := randDraw.emod maxJitter
    if cancelledWithin jd then .ctxCancelled
    else .slept jd

/-! ## Configuration (`internal/config`) -/

/-- The `config.JitterConfig` struct (`enabled` is the inheritance
tri-state). -/
structure JitterConfig where
  enabled : Option Bool
  max : String
  deriving DecidableEq, Repr

/-- The `config.TestStep` struct; `fileSize` carries the parsed byte
count. -/
structure TestStep where
  name : String
  script : String
  timeout : String
  fileSize : Option Int
  ttlSeconds : Option Int
  filePref : Option String
  maxAgeMinutes : Option Int
  maxDelete : Option Int
  jitter : Option JitterConfig
  deriving DecidableEq, Repr

/-- The `config.Test` struct. -/
structure Test where
  name : String
  schedule : String
  enabled : Bool
  executor : String
  bucket : Option String
  filename : Option String
  jitter : Option JitterConfig
  steps : List TestStep
  deriving DecidableEq, Repr

/-- The `config.SatelliteConfig` struct. -/
structure SatelliteConfig where
  accessGrant : String
  bucket : String
  deriving DecidableEq, Repr

/-- The `config.S3Config` struct. -/
structure S3Config where
  endpoint : String
  accessKey : String
  secretKey : String
  region : String
  deriving DecidableEq, Repr

/-- The `config.K6Config` struct. -/
structure K6Config where
  binaryPath : String
  outputFormat : String
  deriving DecidableEq, Repr

/-- The `config.MetricsConfig` struct. -/
structure MetricsConfig where
  port : Int
  path : String
  deriving DecidableEq, Repr

/-- The `config.LoggingConfig` struct. -/
structure LoggingConfig where
  level : String
  format : String
  deriving DecidableEq, Repr

/-- The `config.Config` struct. -/
structure Config where
  satellite : SatelliteConfig
  s3 : S3Config
  tests : List Test
  k6 : K6Config
  metrics : MetricsConfig
  logging : LoggingConfig
  jitter : JitterConfig
  deriving DecidableEq, Repr

/-- The defaults block of `config.Load` (`uplink_executor.go`, config
part, lines 645-666): fill empty fields with their documented
defaults. -/
def applyDefaults (cfg : Config) : Config :=
  { cfg with
    k6 :=
      { binaryPath :=
          if cfg.k6.binaryPath = "" then "/usr/local/bin/k6" else cfg.k6.binaryPath
        outputFormat :=
          if cfg.k6.outputFormat = "" then "json" else cfg.k6.outputFormat }
    s3 :=
      { cfg.s3 with
        region := if cfg.s3.region = "" then "us-east-1" else cfg.s3.region }
    metrics :=
      { port := if cfg.metrics.port = 0 then 8080 else cfg.metrics.port
        path := if cfg.metrics.path = "" then "/metrics" else cfg.metrics.path }
    logging :=
      { level := if cfg.logging.level = "" then "info" else cfg.logging.level
        format := if cfg.logging.format = "" then "json" else cfg.logging.format } }

/-- Embedding of `config.Load` after the I/O front end: reading the file,
substituting environment variables and YAML-decoding are external; on a
decoding failure the error is returned, and on success the defaults are
applied and the configuration is returned as-is.  No validation of tests,
steps, schedules or sizes takes place (`uplink_executor.go`, config part,
lines 631-669). -/
def load (unmarshalled : Option Config) : Except String Config :=
  match unmarshalled with
  | none => .error "yaml: unmarshal error"
  | some cfg => .ok (applyDefaults cfg)

/-- The `Test.GetExecutor` accessor: the declared executor, defaulting to
`"uplink"`. -/
def getExecutor (t : Test) : String :=
  if t.executor = "" then "uplink" else t.executor

/-! ## Scheduler (`internal/scheduler`) -/

/-- Scheduler state: the loaded test list and the names of the registered
executors (the keys of the executor map built in `main`). -/
structure SchedulerState where
  tests : List Test
  executors : List String
  deriving Repr

/-- The tests that `Scheduler.Start` registers with the cron engine
(`logging.go`, scheduler part, lines 396-475): disabled tests and tests
whose resolved executor is not registered are skipped. -/
def startScheduledTests (s : SchedulerState) : List Test :=
  s.tests.filter (fun t => t.enabled && s.executors.contains (getExecutor t))

/-- Embedding of `Scheduler.RunNow` (`logging.go`, scheduler part, lines
486-499): find the first test with the given name, resolve its executor
and invoke `RunTest` on it — with no check of the `enabled` flag and no
jitter; `.ok t` stands for the `RunTest` invocation on `t`. -/
def runNow (s : SchedulerState) (testName : String) : Except String Test :=
  match s.tests.find? (fun t => t.name == testName) with
  | some t =>
    if s.executors.contains (getExecutor t) then .ok t
    else .error ("unknown executor type for test " ++ testName)
  | none => .error ("test not found: " ++ testName)

/-! ## AWS Signature V4 signer (`internal/executor/awsv4`)

Strings are byte sequences (`List Nat` of UTF-8 bytes) where the Go code
hashes or escapes them.  SHA-256 and HMAC-SHA-256 are pure functions of
their input bytes; their internals play no role in any claim here, so they
are taken as parameters (`hashSHA256` returning the hex digest string,
`hmacSHA256` returning the MAC bytes), and every theorem quantifies over
them. -/

/-- UTF-8 encoding of one character. -/
def utf8Bytes (c : Char) : List Nat :=
  let n := c.toNat
  if n < 128 then [n]
  else if n < 2048 then [192 + n / 64, 128 + n % 64]
  else if n < 65536 then [224 + n / 4096, 128 + n / 64 % 64, 128 + n % 64]
  else [240 + n / 262144, 128 + n / 4096 % 64, 128 + n / 64 % 64, 128 + n % 64]

/-- UTF-8 bytes of a string. -/
def strBytes (s : String) : List Nat :=
  s.data.flatMap utf8Bytes

/-- Lowercase hex digit (as used by `hex.EncodeToString`). -/
def lowHexChar (n : Nat) : Char :=
  if n < 10 then Char.ofNat (48 + n) else Char.ofNat (87 + n)

/-- Lowercase hex encoding of a byte list, modelling
`hex.EncodeToString`. -/
def hexEncode (bs : List Nat) : String :=
  String.mk (bs.flatMap (fun b => [lowHexChar (b / 16), lowHexChar (b % 16)]))

/-- Uppercase hex digit (as used by `net/url` percent escaping). -/
def upHexChar (n : Nat) : Char :=
  if n < 10 then Char.ofNat (48 + n) else Char.ofNat (55 + n)

/-- ASCII letter or digit. -/
def isAlphaNumByte (b : Nat) : Bool :=
  (97 ≤ b && b ≤ 122) || (65 ≤ b && b ≤ 90) || (48 ≤ b && b ≤ 57)

/-- Go `net/url.shouldEscape` for a path segment: keep alphanumerics, the
unreserved marks `- _ . ~` and the reserved `$ & + : = @`; escape
everything else (in particular `/ ; , ?` and all non-ASCII bytes). -/
def shouldEscapePathSegment (b : Nat) : Bool :=
  if isAlphaNumByte b then false
  else if b = 45 || b = 95 || b = 46 || b = 126 then false
  else if b = 36 || b = 38 || b = 43 || b = 58 || b = 61 || b = 64 then false
  else true

/-- Go `net/url.shouldEscape` for a query component: keep only
alphanumerics and `- _ . ~`. -/
def shouldEscapeQuery (b : Nat) : Bool :=
  !(isAlphaNumByte b || b = 45 || b = 95 || b = 46 || b = 126)

/-- Model of `url.PathEscape` (percent-escaping over UTF-8 bytes with
uppercase hex). -/
def pathEscape (s : String) : String :=
  String.mk ((strBytes s).flatMap (fun b =>
    if shouldEscapePathSegment b then ['%', upHexChar (b / 16), upHexChar (b % 16)]
    else [Char.ofNat b]))

/-- Model of `url.QueryEscape`: like path escaping but with the query
byte class and space encoded as `+`. -/
def queryEscape (s : String) : String :=
  String.mk ((strBytes s).flatMap (fun b =>
    if b = 32 then ['+']
    else if shouldEscapeQuery b then ['%', upHexChar (b / 16), upHexChar (b % 16)]
    else [Char.ofNat b]))

/-- `strings.Join` with a separator. -/
def joinSep (sep : String) : List String → String
  | [] => ""
  | [x] => x
  | x :: y :: xs => x ++ sep ++ joinSep sep (y :: xs)

/-- Byte-wise lexicographic order on byte lists, the order `sort.Strings`
uses on Go strings. -/
def bytesLe : List Nat → List Nat → Bool
  | [], _ => true
  | _ :: _, [] => false
  | a :: as, b :: bs => if a < b then true else if b < a then false else bytesLe as bs

/-- `sort.Strings` comparison. -/
def strLe (a b : String) : Bool :=
  bytesLe (strBytes a) (strBytes b)

/-- Ordered insert for the sort below. -/
def insertLe {α : Type} (le : α → α → Bool) (x : α) : List α → List α
  | [] => [x]
  | y :: ys => if le x y then x :: y :: ys else y :: insertLe le x ys

/-- Insertion sort, modelling `sort.Strings` (duplicate strings are
identical, so stability is immaterial). -/
def sortLe {α : Type} (le : α → α → Bool) (l : List α) : List α :=
  l.foldr (insertLe le) []

/-- Embedding of `canonicalURIEncode`: escape each `/`-separated path
segment and rejoin. -/
def canonicalURIEncode (path : String) : String :=
  joinSep "/" ((splitOnChar '/' path.data).map (fun seg => pathEscape (String.mk seg)))

/-- Embedding of `canonicalizeQueryString`: keys sorted, every
`key=value` pair URL-escaped, joined by `&`.  `url.Values` is modelled as
an association list with distinct keys. -/
def canonicalizeQueryString (values : List (String × List String)) : String :=
  match values with
  | [] => ""
  | _ =>
    let keys := sortLe strLe (values.map (fun kv => kv.1))
    let parts := keys.flatMap (fun key =>
      (((values.find? (fun kv => kv.1 == key)).map (fun kv => kv.2)).getD []).map
        (fun v => queryEscape key ++ "=" ++ queryEscape v))
    joinSep "&" parts

/-- Embedding of `canonicalizeHeaders`: the signed names are `host` plus
every header whose lowercase name starts with `x-amz-` or equals
`content-type`, sorted; the canonical header block lists `name:value`
lines (first value, trimmed; the host value comes from the request's
host). -/
def canonicalizeHeaders (headers : List (String × List String)) (host : String) :
    String × String :=
  let signedList := "host" :: headers.foldr (fun kv acc =>
    let ln := toLowerS kv.1
    if hasPrefixS ln "x-amz-" || ln = "content-type" then ln :: acc else acc) []
  let sorted := sortLe strLe signedList
  let canonicalParts := sorted.map (fun name =>
    let value :=
      if name = "host" then host
      else
        match headers.find? (fun kv => toLowerS kv.1 == name && !kv.2.isEmpty) with
        | some kv => trimS (kv.2.headD "")
        | none => ""
    name ++ ":" ++ value ++ "\n")
  (joinSep "" canonicalParts, joinSep ";" sorted)

/-- Embedding of `buildCanonicalRequest`: method, escaped URI, canonical
query string, canonical headers, signed-header list and payload hash,
joined by newlines; also returns the signed-header list. -/
def buildCanonicalRequest (method path : String)
    (query : List (String × List String))
    (headers : List (String × List String)) (host payloadHash : String) :
    String × String :=
  let canonicalURI := canonicalURIEncode (if path = "" then "/" else path)
  let canonicalQueryString := canonicalizeQueryString query
  let (canonicalHeaders, signedHeaders) := canonicalizeHeaders headers host
  (joinSep "\n"
    [method, canonicalURI, canonicalQueryString, canonicalHeaders,
      signedHeaders, payloadHash],
    signedHeaders)

/-- The `awsv4.Credentials` struct. -/
structure Credentials where
  accessKey : String
  secretKey : String
  region : String
  deriving DecidableEq, Repr

/-- An `http.Request` as the signer reads it: method, URL path, parsed
query, host, and the header map as an association list. -/
structure Request where
  method : String
  path : String
  query : List (String × List String)
  host : String
  headers : List (String × List String)
  deriving DecidableEq, Repr

/-- A signing instant, carried as its two Go format renderings
(`20060102T150405Z` and `20060102`). -/
structure SignTime where
  amzDate : String
  dateStamp : String
  deriving DecidableEq, Repr

/-- Model of `http.Header.Set`: drop any entry with the same
(case-insensitive) name, then add the new one. -/
def headerSet (headers : List (String × List String)) (key value : String) :
    List (String × List String) :=
  headers.filter (fun kv => !(toLowerS kv.1 == toLowerS key)) ++ [(key, [value])]

/-- Embedding of `buildStringToSign`. -/
def buildStringToSign (hashSHA256 : List Nat → String)
    (algorithm amzDate credentialScope canonicalRequest : String) : String :=
  joinSep "\n" [algorithm, amzDate, credentialScope, hashSHA256 (strBytes canonicalRequest)]

/-- Embedding of `deriveSigningKey`: the HMAC chain
`"AWS4"+secret → date → region → service → "aws4_request"`. -/
def deriveSigningKey (hmacSHA256 : List Nat → List Nat → List Nat)
    (secretKey dateStamp region service : String) : List Nat :=
  let kDate := hmacSHA256 (strBytes ("AWS4" ++ secretKey)) (strBytes dateStamp)
  let kRegion := hmacSHA256 kDate (strBytes region)
  let kService := hmacSHA256 kRegion (strBytes service)
  hmacSHA256 kService (strBytes "aws4_request")

/-- Embedding of `signRequestAtTime`: set the date, host and payload-hash
headers, build the canonical request and string-to-sign, derive the
signing key and produce the `Authorization` header value.  A `none`
payload stands for Go's `nil` body and yields the `UNSIGNED-PAYLOAD`
sentinel. -/
def signRequestAtTime (hashSHA256 : List Nat → String)
    (hmacSHA256 : List Nat → List Nat → List Nat)
    (req : Request) (creds : Credentials) (payload : Option (List Nat))
    (t : SignTime) : String :=
  let h1 := headerSet req.headers "X-Amz-Date" t.amzDate
  let h2 := headerSet h1 "Host" req.host
  let payloadHash :=
    match payload with
    | none => "UNSIGNED-PAYLOAD"
    | some p => hashSHA256 p
  let h3 := headerSet h2 "X-Amz-Content-Sha256" payloadHash
  let (canonicalReq, signedHeaders) :=
    buildCanonicalRequest req.method req.path req.query h3 req.host payloadHash
  let credentialScope :=
    t.dateStamp ++ "/" ++ creds.region ++ "/s3/aws4_request"
  let stringToSign :=
    buildStringToSign hashSHA256 "AWS4-HMAC-SHA256" t.amzDate credentialScope canonicalReq
  let signingKey := deriveSigningKey hmacSHA256 creds.secretKey t.dateStamp creds.region "s3"
  let signature := hexEncode (hmacSHA256 signingKey (strBytes stringToSign))
  "AWS4-HMAC-SHA256 Credential=" ++ creds.accessKey ++ "/" ++ credentialScope ++
    ", SignedHeaders=" ++ signedHeaders ++ ", Signature=" ++ signature

/-- The `awsv4.Signer` struct with its cached daily key. -/
structure Signer where
  creds : Credentials
  signingKey : List Nat
  dateStamp : String
  deriving DecidableEq, Repr

/-- Embedding of the cached-key `Signer.Sign` at a given instant: refresh
the signing key when the cached date differs from the current one, then
sign with `UNSIGNED-PAYLOAD` exactly as `signRequestAtTime` does; returns
the updated signer and the `Authorization` value. -/
def signerSign (hashSHA256 : List Nat → String)
    (hmacSHA256 : List Nat → List Nat → List Nat)
    (s : Signer) (req : Request) (t : SignTime) : Signer × String :=
  let s1 :=
    if s.dateStamp ≠ t.dateStamp then
      { s with
        signingKey := deriveSigningKey hmacSHA256 s.creds.secretKey t.dateStamp s.creds.region "s3"
        dateStamp := t.dateStamp }
    else s
  let h1 := headerSet req.headers "X-Amz-Date" t.amzDate
  let h2 := headerSet h1 "Host" req.host
  let h3 := headerSet h2 "X-Amz-Content-Sha256" "UNSIGNED-PAYLOAD"
  let (canonicalReq, signedHeaders) :=
    buildCanonicalRequest req.method req.path req.query h3 req.host "UNSIGNED-PAYLOAD"
  let credentialScope :=
    t.dateStamp ++ "/" ++ s1.creds.region ++ "/s3/aws4_request"
  let stringToSign :=
    buildStringToSign hashSHA256 "AWS4-HMAC-SHA256" t.amzDate credentialScope canonicalReq
  let signature := hexEncode (hmacSHA256 s1.signingKey (strBytes stringToSign))
  (s1,
    "AWS4-HMAC-SHA256 Credential=" ++ s1.creds.accessKey ++ "/" ++ credentialScope ++
      ", SignedHeaders=" ++ signedHeaders ++ ", Signature=" ++ signature)

/-- One observed invocation of the signing function: the relation holds of
every `Authorization` value some run of `signRequestAtTime` can produce
for the given inputs. -/
inductive SignInvocation (hashSHA256 : List Nat → String)
    (hmacSHA256 : List Nat → List Nat → List Nat)
    (req : Request) (creds : Credentials) (payload : Option (List Nat))
    (t : SignTime) : String → Prop
  | run : SignInvocation hashSHA256 hmacSHA256 req creds payload t
      (signRequestAtTime hashSHA256 hmacSHA256 req creds payload t)

/-! ## Concrete instances used to evaluate the definitions -/

/-- A test whose steps list is empty, as YAML `steps: []` decodes it. -/
def zeroStepTest : Test :=
  { name := "empty-test", schedule := "*/5 * * * *", enabled := true,
    executor := "", bucket := none, filename := none, jitter := none,
    steps := [] }

/-- A decoded configuration document containing only `zeroStepTest`. -/
def zeroStepConfig : Config :=
  { satellite := { accessGrant := "grant", bucket := "bkt" }
    s3 := { endpoint := "", accessKey := "", secretKey := "", region := "" }
    tests := [zeroStepTest]
    k6 := { binaryPath := "", outputFormat := "" }
    metrics := { port := 0, path := "" }
    logging := { level := "", format := "" }
    jitter := { enabled := none, max := "" } }

/-- A plain upload step. -/
def sampleStep : TestStep :=
  { name := "upload", script := "", timeout := "30s", fileSize := none,
    ttlSeconds := none, filePref := none, maxAgeMinutes := none,
    maxDelete := none, jitter := none }

/-- A disabled test declaring the default executor. -/
def disabledTest : Test :=
  { name := "t-disabled", schedule := "*/5 * * * *", enabled := false,
    executor := "", bucket := none, filename := none, jitter := none,
    steps := [sampleStep] }

/-- A scheduler holding `disabledTest` with its executor registered. -/
def sampleScheduler : SchedulerState :=
  { tests := [disabledTest], executors := ["uplink"] }

/-- A concrete request for evaluating the signer. -/
def sampleRequest : Request :=
  { method := "PUT"
    path := "/test-bucket/obj-01.bin"
    query := []
    host := "gateway.example.test"
    headers := [("Content-Type", ["application/octet-stream"])] }

/-- Concrete signing credentials. -/
def sampleCredentials : Credentials :=
  { accessKey := "AKIDEXAMPLE", secretKey := "secret", region := "us-east-1" }

/-- A concrete signing instant. -/
def sampleSignTime : SignTime :=
  { amzDate := "20260101T000000Z", dateStamp := "20260101" }

/-- A concrete (toy) hash primitive for evaluating the signer: hex of the
first four input bytes. -/
def sampleHash : List Nat → String :=
  fun bs => hexEncode (bs.take 4)

/-- A concrete (toy) MAC primitive for evaluating the signer. -/
def sampleHmac : List Nat → List Nat → List Nat :=
  fun k d => (k ++ d).take 8

/-! ## Claim theorems -/

/-- C9: size parsing round-trips.  For each pair in
`{(1,B), (1,KB), (5,MB), (1,GB)}`, `parseByteSize` maps the canonical
label to exactly the original byte count and `ByteSize.String` maps that
byte count back to the same label. -/
theorem byteSize_roundtrip_C9 :
    parseByteSize "1B" = .ok 1 ∧ byteSizeString 1 = "1B" ∧
    parseByteSize "1KB" = .ok 1024 ∧ byteSizeString 1024 = "1KB" ∧
    parseByteSize "5MB" = .ok 5242880 ∧ byteSizeString 5242880 = "5MB" ∧
    parseByteSize "1GB" = .ok 1073741824 ∧ byteSizeString 1073741824 = "1GB" :=
  ⟨rfl, rfl, rfl, rfl, rfl, rfl, rfl, rfl⟩

/-- C6 counterexample: the claim says a timeout of `"0"` falls back to the
two-minute default, but `"0"` parses successfully to the zero duration,
which `TimeoutDuration` returns unchanged. -/
theorem timeout_zero_not_default_C6 :
    timeoutDuration "0" = 0 ∧ (0 : Int) ≠ 2 * 60 * 1000000000 :=
  ⟨rfl, by decide⟩

/-- C6 (amended): `TimeoutDuration` returns the two-minute default exactly
for unparseable timeouts (the empty string among them); every parseable
timeout — the zero duration `"0"` included — is returned as parsed. -/
theorem timeout_default_amended_C6 :
    parseDuration "" = none ∧
    (∀ s, parseDuration s = none → timeoutDuration s = 2 * 60 * 1000000000) ∧
    (∀ s d, parseDuration s = some d → timeoutDuration s = d) := by
  refine ⟨rfl, ?_, ?_⟩
  · intro s h
    simp [timeoutDuration, h]
  · intro s d h
    simp [timeoutDuration, h]

/-- C6 witness: the amended theorem evaluated at the empty string and at
`"30s"`. -/
theorem timeout_default_amended_C6_witness :
    timeoutDuration "" = 2 * 60 * 1000000000 ∧
    timeoutDuration "30s" = 30000000000 :=
  ⟨timeout_default_amended_C6.2.1 "" rfl,
   timeout_default_amended_C6.2.2 "30s" 30000000000 rfl⟩

/-- C4 counterexample: on the well-formed curl line
`200|0.001|0.002|0|0.010|0.020` (plain-HTTP exchange, absent `appconnect`
reported as `0`), the conversion emits a negative TLS phase of `-2ms`
rather than the `0` the claim asserts. -/
theorem curl_negative_phase_C4 :
    parseCurlOutput "200|0.001|0.002|0|0.010|0.020" =
      .ok ("200",
        { dnsLookup := 1000000, tcpConnect := 1000000, tlsHandshake := -2000000,
          ttfb := 10000000, transfer := 10000000, total := 20000000 }) ∧
    (-2000000 : Int) < 0 :=
  ⟨rfl, by decide⟩

/-- C4 (amended): the conversion subtracts adjacent cumulative values with
no clamping, so a phase can be emitted negative when an absent phase
reports `0`; when the six cumulative fields are monotone non-decreasing
with no zero exception, every emitted phase is non-negative. -/
theorem curl_phase_nonneg_amended_C4 :
    ∀ dns tcp tls tf total : Int,
      0 ≤ dns → dns ≤ tcp → tcp ≤ tls → tls ≤ tf → tf ≤ total →
      0 ≤ (convertCurlTimings dns tcp tls tf total).dnsLookup ∧
      0 ≤ (convertCurlTimings dns tcp tls tf total).tcpConnect ∧
      0 ≤ (convertCurlTimings dns tcp tls tf total).tlsHandshake ∧
      0 ≤ (convertCurlTimings dns tcp tls tf total).ttfb ∧
      0 ≤ (convertCurlTimings dns tcp tls tf total).transfer ∧
      0 ≤ (convertCurlTimings dns tcp tls tf total).total := by
  intro a b c d e h1 h2 h3 h4 h5
  simp only [convertCurlTimings]
  refine ⟨?_, ?_, ?_, ?_, ?_, ?_⟩ <;> omega

/-- C4 witness: the amended theorem evaluated on the monotone cumulative
values `1 ≤ 2 ≤ 3 ≤ 4 ≤ 5` (milliseconds scaled to integers). -/
theorem curl_phase_nonneg_amended_C4_witness :
    0 ≤ (convertCurlTimings 1 2 3 4 5).dnsLookup ∧
    0 ≤ (convertCurlTimings 1 2 3 4 5).tcpConnect ∧
    0 ≤ (convertCurlTimings 1 2 3 4 5).tlsHandshake ∧
    0 ≤ (convertCurlTimings 1 2 3 4 5).ttfb ∧
    0 ≤ (convertCurlTimings 1 2 3 4 5).transfer ∧
    0 ≤ (convertCurlTimings 1 2 3 4 5).total :=
  curl_phase_nonneg_amended_C4 1 2 3 4 5 (by decide) (by decide) (by decide)
    (by decide) (by decide)

/-- C5: the claim (and the `Test` struct's own `Required: 1+ steps`
comment) requires configuration loading to fail on a test with an empty
steps list, but `config.Load` performs no validation: the decoded document
holding `zeroStepTest` loads successfully and the returned configuration
still contains the test with zero steps. -/
theorem load_accepts_empty_steps_C5 :
    load (some zeroStepConfig) = .ok (applyDefaults zeroStepConfig) ∧
    (applyDefaults zeroStepConfig).tests.map Test.steps = [[]] :=
  ⟨rfl, rfl⟩

/-- C2 counterexample: a step named `list` is claimed to invoke the list
operation, but all three S3-family dispatch switches send it to the
unknown-operation default arm. -/
theorem list_step_unknown_C2 :
    s3StepDispatch "list" = .error "unknown S3 operation: list" ∧
    curlS3StepDispatch "list" = .error "unknown Curl S3 operation: list" ∧
    httpS3StepDispatch "list" = .error "unknown HTTP S3 operation: list" :=
  ⟨rfl, rfl, rfl⟩

/-- C2 (amended): the S3-family executors dispatch exactly the step names
`upload`, `download` and `delete` to their operations; every other name —
`list` included — fails immediately with the executor's unknown-operation
error. -/
theorem step_dispatch_amended_C2 :
    ∀ name : String,
      (name = "upload" →
        s3StepDispatch name = .ok .upload ∧
        curlS3StepDispatch name = .ok .upload ∧
        httpS3StepDispatch name = .ok .upload) ∧
      (name = "download" →
        s3StepDispatch name = .ok .download ∧
        curlS3StepDispatch name = .ok .download ∧
        httpS3StepDispatch name = .ok .download) ∧
      (name = "delete" →
        s3StepDispatch name = .ok .delete ∧
        curlS3StepDispatch name = .ok .delete ∧
        httpS3StepDispatch name = .ok .delete) ∧
      (name ≠ "upload" → name ≠ "download" → name ≠ "delete" →
        s3StepDispatch name = .error ("unknown S3 operation: " ++ name) ∧
        curlS3StepDispatch name = .error ("unknown Curl S3 operation: " ++ name) ∧
        httpS3StepDispatch name = .error ("unknown HTTP S3 operation: " ++ name)) := by
  intro name
  refine ⟨fun h => ?_, fun h => ?_, fun h => ?_, fun h1 h2 h3 => ⟨?_, ?_, ?_⟩⟩
  · subst h; exact ⟨rfl, rfl, rfl⟩
  · subst h; exact ⟨rfl, rfl, rfl⟩
  · subst h; exact ⟨rfl, rfl, rfl⟩
  · unfold s3StepDispatch; split <;> simp_all
  · unfold curlS3StepDispatch; split <;> simp_all
  · unfold httpS3StepDispatch; split <;> simp_all

/-- C2 witness: the amended theorem evaluated at `upload` and at
`delete-all`. -/
theorem step_dispatch_amended_C2_witness :
    s3StepDispatch "upload" = .ok .upload ∧
    s3StepDispatch "delete-all" = .error "unknown S3 operation: delete-all" :=
  ⟨((step_dispatch_amended_C2 "upload").1 rfl).1,
   ((step_dispatch_amended_C2 "delete-all").2.2.2 (by decide) (by decide)
      (by decide)).1⟩

/-- C1 counterexample: a run whose single `upload` step fails in its
operation records no `synthetics_test_runs_total` increment with the empty
step label at all (the claim demands exactly one), while the failed step
is incremented twice (once in `runStep`, once more in `RunTest`). -/
theorem runTest_counter_missing_empty_step_C1 :
    runTestEvents true [⟨"upload", StepOutcome.opFailed⟩] =
      [("upload", Status.failure), ("upload", Status.failure)] ∧
    stepLabelCount "" (runTestEvents true [⟨"upload", StepOutcome.opFailed⟩]) = 0 ∧
    stepLabelCount "upload"
      (runTestEvents true [⟨"upload", StepOutcome.opFailed⟩]) = 2 :=
  ⟨rfl, rfl, rfl⟩

/-- C1 (amended): on a run whose bucket is ensured and whose steps all
succeed, exactly one empty-step increment (status success) and exactly one
success increment per step occur.  On a failed run no empty-step increment
occurs: the steps before the first failing one get one success increment
each, and the failing step gets two failure increments — or a single one
when it was interrupted by its step jitter before recording.  A failed
bucket-ensure emits no increment at all. -/
theorem runTest_counter_events_amended_C1 :
    (∀ steps : List StepRun, runTestEvents false steps = []) ∧
    (∀ steps : List StepRun, (∀ s ∈ steps, s.outcome = .opSucceeded) →
      runTestEvents true steps =
        steps.map (fun s => (s.name, Status.success)) ++ [("", .success)]) ∧
    (∀ (pre : List StepRun) (s : StepRun) (post : List StepRun),
      (∀ u ∈ pre, u.outcome = .opSucceeded) → s.outcome ≠ .opSucceeded →
      runTestEvents true (pre ++ s :: post) =
        pre.map (fun u => (u.name, Status.success)) ++
        (if s.outcome = .opFailed
          then [(s.name, .failure), (s.name, .failure)]
          else [(s.name, .failure)])) := by
  refine ⟨fun steps => rfl, ?_, ?_⟩
  · intro steps h
    simp only [runTestEvents, if_pos trivial]
    induction steps with
    | nil => rfl
    | cons s rest ih =>
      have hs : s.outcome = .opSucceeded := h s (by simp)
      simp [runStepsEvents, runStepEvents, hs]
      exact ih (fun u hu => h u (by simp [hu]))
  · intro pre s post hpre hs
    simp only [runTestEvents, if_pos trivial]
    induction pre with
    | nil =>
      cases hso : s.outcome with
      | jitterInterrupted => simp [runStepsEvents, runStepEvents, hso]
      | opFailed => simp [runStepsEvents, runStepEvents, hso]
      | opSucceeded => exact absurd hso hs
    | cons u rest ih =>
      have hu : u.outcome = .opSucceeded := hpre u (by simp)
      simp [runStepsEvents, runStepEvents, hu]
      exact ih (fun v hv => hpre v (by simp [hv]))

/-- C1 witness: the amended theorem evaluated on a successful
upload-download run and on an upload-download-delete run failing at the
download. -/
theorem runTest_counter_events_amended_C1_witness :
    runTestEvents true
        [⟨"upload", StepOutcome.opSucceeded⟩, ⟨"download", StepOutcome.opSucceeded⟩] =
      [("upload", Status.success), ("download", Status.success), ("", Status.success)] ∧
    runTestEvents true
        [⟨"upload", StepOutcome.opSucceeded⟩, ⟨"download", StepOutcome.opFailed⟩,
          ⟨"delete", StepOutcome.opSucceeded⟩] =
      [("upload", Status.success), ("download", Status.failure),
        ("download", Status.failure)] :=
  ⟨(runTest_counter_events_amended_C1.2.1 _ (by decide)).trans rfl,
   (runTest_counter_events_amended_C1.2.2 [⟨"upload", StepOutcome.opSucceeded⟩]
      ⟨"download", StepOutcome.opFailed⟩ [⟨"delete", StepOutcome.opSucceeded⟩]
      (by decide) (by decide)).trans rfl⟩

/-- C3: with `success=false` the recorders leave `synth_bytes_total` and
`synth_operation_count_total` unchanged and emit exactly one
`synth_operation_success_total{failure}` increment; with `success=true`
`synth_bytes_total` grows by the byte count and
`synth_operation_count_total` by one; consequently the bytes counter never
decreases and gets zero increments on failures. -/
theorem record_storj_counters_C3 :
    ∀ (fs : String) (d b : Int),
      (bytesDelta (recordStorjUpload fs d b false) = 0 ∧
        opCountDelta (recordStorjUpload fs d b false) = 0 ∧
        statusIncCount .failure (recordStorjUpload fs d b false) = 1 ∧
        statusIncCount .success (recordStorjUpload fs d b false) = 0) ∧
      (bytesDelta (recordStorjDownload fs d b false) = 0 ∧
        opCountDelta (recordStorjDownload fs d b false) = 0 ∧
        statusIncCount .failure (recordStorjDownload fs d b false) = 1 ∧
        statusIncCount .success (recordStorjDownload fs d b false) = 0) ∧
      (bytesDelta (recordStorjUpload fs d b true) = b ∧
        opCountDelta (recordStorjUpload fs d b true) = 1 ∧
        bytesDelta (recordStorjDownload fs d b true) = b ∧
        opCountDelta (recordStorjDownload fs d b true) = 1) ∧
      (∀ success : Bool, 0 ≤ b →
        0 ≤ bytesDelta (recordStorjUpload fs d b success) ∧
        0 ≤ bytesDelta (recordStorjDownload fs d b success)) := by
  intro fs d b
  have hupf : bytesDelta (recordStorjUpload fs d b false) = 0 ∧
      opCountDelta (recordStorjUpload fs d b false) = 0 ∧
      statusIncCount .failure (recordStorjUpload fs d b false) = 1 ∧
      statusIncCount .success (recordStorjUpload fs d b false) = 0 := by
    refine ⟨?_, ?_, ?_, ?_⟩ <;>
      simp only [recordStorjUpload] <;>
      split_ifs <;>
      simp_all [bytesDelta, opCountDelta, statusIncCount, List.countP_cons]
  have hdownf : bytesDelta (recordStorjDownload fs d b false) = 0 ∧
      opCountDelta (recordStorjDownload fs d b false) = 0 ∧
      statusIncCount .failure (recordStorjDownload fs d b false) = 1 ∧
      statusIncCount .success (recordStorjDownload fs d b false) = 0 := by
    refine ⟨?_, ?_, ?_, ?_⟩ <;>
      simp only [recordStorjDownload] <;>
      split_ifs <;>
      simp_all [bytesDelta, opCountDelta, statusIncCount, List.countP_cons]
  have hsucc : bytesDelta (recordStorjUpload fs d b true) = b ∧
      opCountDelta (recordStorjUpload fs d b true) = 1 ∧
      bytesDelta (recordStorjDownload fs d b true) = b ∧
      opCountDelta (recordStorjDownload fs d b true) = 1 := by
    refine ⟨?_, ?_, ?_, ?_⟩ <;>
      simp only [recordStorjUpload, recordStorjDownload] <;>
      split_ifs <;>
      simp_all [bytesDelta, opCountDelta]
  refine ⟨hupf, hdownf, hsucc, ?_⟩
  intro success hb
  cases success
  · have h1 := hupf.1
    have h2 := hdownf.1
    constructor <;> omega
  · have h1 := hsucc.1
    have h2 := hsucc.2.2.1
    constructor <;> omega

/-- C3 witness: the counter deltas evaluated at a failed and a successful
5-byte operation. -/
theorem record_storj_counters_C3_witness :
    bytesDelta (recordStorjUpload "1MB" 7 5 false) = 0 ∧
    statusIncCount .failure (recordStorjUpload "1MB" 7 5 false) = 1 ∧
    bytesDelta (recordStorjDownload "" 7 5 true) = 5 ∧
    opCountDelta (recordStorjDownload "" 7 5 true) = 1 ∧
    0 ≤ bytesDelta (recordStorjUpload "1MB" 7 5 true) :=
  ⟨(record_storj_counters_C3 "1MB" 7 5).1.1,
   (record_storj_counters_C3 "1MB" 7 5).1.2.2.1,
   (record_storj_counters_C3 "" 7 5).2.2.1.2.2.1,
   (record_storj_counters_C3 "" 7 5).2.2.1.2.2.2,
   ((record_storj_counters_C3 "1MB" 7 5).2.2.2 true (by decide)).1⟩

/-- C8: `jitter.Apply` returns without sleeping whenever `maxJitter ≤ 0`;
for positive `maxJitter` the drawn duration lies in `[0, maxJitter)` and
the call either sleeps that long and returns `nil`, or returns the
context's cancellation error when the context is cancelled first. -/
theorem jitter_apply_C8 :
    ∀ (maxJitter randDraw : Int) (cancelledWithin : Int → Bool),
      (maxJitter ≤ 0 → jitterApply maxJitter randDraw cancelledWithin = .noSleep) ∧
      (0 < maxJitter →
        0 ≤ randDraw.emod maxJitter ∧ randDraw.emod maxJitter < maxJitter ∧
        (cancelledWithin (randDraw.emod maxJitter) = false →
          jitterApply maxJitter randDraw cancelledWithin =
            .slept (randDraw.emod maxJitter)) ∧
        (cancelledWithin (randDraw.emod maxJitter) = true →
          jitterApply maxJitter randDraw cancelledWithin = .ctxCancelled)) := by
  intro m r c
  constructor
  · intro h
    simp [jitterApply, h]
  · intro h
    have hm : ¬m ≤ 0 := not_le.mpr h
    refine ⟨Int.emod_nonneg r (by omega), Int.emod_lt_of_pos r h, ?_, ?_⟩ <;>
      intro hc <;> simp [jitterApply, hm, hc]

/-- C8 witness: the theorem evaluated at `maxJitter = 0` (no-op), and at
`maxJitter = 10` with PRNG output 13 (drawn duration 3) under a live and a
cancelled context. -/
theorem jitter_apply_C8_witness :
    jitterApply 0 13 (fun _ => false) = .noSleep ∧
    jitterApply 10 13 (fun _ => false) = .slept 3 ∧
    jitterApply 10 13 (fun _ => true) = .ctxCancelled :=
  ⟨(jitter_apply_C8 0 13 (fun _ => false)).1 (by decide),
   (((jitter_apply_C8 10 13 (fun _ => false)).2 (by decide)).2.2.1 rfl).trans
     (by decide),
   ((jitter_apply_C8 10 13 (fun _ => true)).2 (by decide)).2.2.2 rfl⟩

/-- C7: signing is deterministic — for fixed hash primitives, method, URL,
headers, payload, credentials and signing time, any two invocations of
`signRequestAtTime` produce byte-identical `Authorization` values. -/
theorem sign_deterministic_C7 :
    ∀ (hashSHA256 : List Nat → String)
      (hmacSHA256 : List Nat → List Nat → List Nat)
      (req : Request) (creds : Credentials) (payload : Option (List Nat))
      (t : SignTime) (a1 a2 : String),
      SignInvocation hashSHA256 hmacSHA256 req creds payload t a1 →
      SignInvocation hashSHA256 hmacSHA256 req creds payload t a2 →
      a1 = a2 := by
  intro _ _ _ _ _ _ a1 a2 h1 h2
  cases h1
  cases h2
  rfl

/-- C7 witness: two invocations on the sample request under the toy
primitives both produce this concrete `Authorization` value. -/
theorem sign_deterministic_C7_witness :
    signRequestAtTime sampleHash sampleHmac sampleRequest sampleCredentials
        none sampleSignTime =
      "AWS4-HMAC-SHA256 Credential=AKIDEXAMPLE/20260101/us-east-1/s3/aws4_request, SignedHeaders=content-type;host;x-amz-content-sha256;x-amz-date, Signature=4157533473656372" :=
  sign_deterministic_C7 sampleHash sampleHmac sampleRequest sampleCredentials
    none sampleSignTime _ _ SignInvocation.run
    (show SignInvocation sampleHash sampleHmac sampleRequest sampleCredentials
        none sampleSignTime
        "AWS4-HMAC-SHA256 Credential=AKIDEXAMPLE/20260101/us-east-1/s3/aws4_request, SignedHeaders=content-type;host;x-amz-content-sha256;x-amz-date, Signature=4157533473656372"
      from SignInvocation.run)

/-- C10: `Scheduler.RunNow` executes the named test through its resolved
executor even when the test is disabled; the disabled-test skip happens
only in `Scheduler.Start`, which never registers such a test. -/
theorem runNow_ignores_enabled_C10 :
    ∀ (s : SchedulerState) (n : String) (t : Test),
      s.tests.find? (fun u => u.name == n) = some t →
      t.enabled = false →
      s.executors.contains (getExecutor t) = true →
      runNow s n = .ok t ∧ t ∉ startScheduledTests s := by
  intro s n t hfind hen hex
  constructor
  · simp only [runNow, hfind]
    rw [if_pos hex]
  · simp [startScheduledTests, List.mem_filter, hen]

/-- C10 witness: the theorem evaluated on `sampleScheduler`, whose only
test is disabled and whose `uplink` executor is registered. -/
theorem runNow_ignores_enabled_C10_witness :
    runNow sampleScheduler "t-disabled" = .ok disabledTest ∧
    disabledTest ∉ startScheduledTests sampleScheduler :=
  runNow_ignores_enabled_C10 sampleScheduler "t-disabled" disabledTest rfl rfl rfl

end Synthetics
